import Mathlib

/-!
Verification of the Cache-Aware-Benchmark repository.

Shallow embedding of the four benchmark programs:
* `false_sharing` (src/unnamed/part_000): dual-actor increment on a shared
  struct, with and without cache-line padding;
* `cache_alignment` (src/cache_alignment/cache_alignment.cpp): full-struct
  scan over unaligned vs 64-byte-aligned arrays;
* `soa_vs_aos` + `heap_vs_pool` (src/soa_vs_aos/soa_vs_aos.cpp): field scan
  over AoS vs SoA layouts, and heap vs pool allocation;
* `numa_access` (src/numa_access/numa_access.cpp): byte-increment scan over a
  NUMA-bound 1 MB block.
-/

namespace FalseSharing

/-- Source constant `NUM_ITERATIONS = 1'000'000'000` (part_000, line 54).
Each actor performs this many increments of its own `int` field; the final
value 10^9 is below 2^31, so the 32-bit counters never wrap and the fields
are modelled as `Nat`. -/
def NUM_ITERATIONS : Nat := 1000000000

/-- Source struct `SharedDataFalseSharing { int x; int y; }` (lines 57-60):
the two counters, adjacent with no padding.  Only the values are modelled
here; the byte layout is modelled in the `Layout` section below. -/
structure SharedDataFalseSharing where
  x : Nat
  y : Nat
deriving DecidableEq

/-- Source struct `SharedDataNoFalseSharing` (lines 63-67): same two
counters, separated by `char padding[60]`.  The padding bytes are never
read or written, so only the counter values are modelled; the byte layout
is modelled in the `Layout` section below. -/
structure SharedDataNoFalseSharing where
  x : Nat
  y : Nat
deriving DecidableEq

/-- One of the two concurrent actors: `threadFunc1` increments `x`,
`threadFunc2` increments `y`. -/
inductive Actor where
  | incX
  | incY
deriving DecidableEq

/-- One interleaving step of `runFalseSharingBenchmark`: the scheduled actor
performs `dataFalse.x++` resp. `dataFalse.y++` (lines 74-84).  Each actor
only ever writes its own field. -/
def stepFalse (s : SharedDataFalseSharing) : Actor → SharedDataFalseSharing
  | Actor.incX => { s with x := s.x + 1 }
  | Actor.incY => { s with y := s.y + 1 }

/-- One interleaving step of `runNoFalseSharingBenchmark` (lines 98-108). -/
def stepNoFalse (s : SharedDataNoFalseSharing) : Actor → SharedDataNoFalseSharing
  | Actor.incX => { s with x := s.x + 1 }
  | Actor.incY => { s with y := s.y + 1 }

/-- `runFalseSharingBenchmark` (lines 73-95): both threads are joined before
the function returns, so the execution is some interleaving `sched` of the
two actors' increments, applied to the zero-initialised global
`dataFalse{0, 0}` (line 70). -/
def runFalseSharingBenchmark (sched : List Actor) : SharedDataFalseSharing :=
  sched.foldl stepFalse ⟨0, 0⟩

/-- `runNoFalseSharingBenchmark` (lines 97-119), applied to the
zero-initialised global `dataNoFalse{0, {}, 0}` (line 71). -/
def runNoFalseSharingBenchmark (sched : List Actor) : SharedDataNoFalseSharing :=
  sched.foldl stepNoFalse ⟨0, 0⟩

/-- A maximal schedule: each actor appears exactly `NUM_ITERATIONS` times
(this particular interleaving runs actor 1 to completion first). -/
def fullSchedule : List Actor :=
  List.replicate NUM_ITERATIONS Actor.incX ++ List.replicate NUM_ITERATIONS Actor.incY

theorem foldl_stepFalse (sched : List Actor) (s : SharedDataFalseSharing) :
    (sched.foldl stepFalse s).x = s.x + sched.count Actor.incX ∧
    (sched.foldl stepFalse s).y = s.y + sched.count Actor.incY := by
  induction sched generalizing s with
  | nil => simp
  | cons a rest ih =>
    obtain ⟨ihx, ihy⟩ := ih (stepFalse s a)
    rcases a with _ | _ <;>
      · simp only [List.foldl_cons, List.count_cons, stepFalse] at ihx ihy ⊢
        constructor <;> simp_all <;> omega

theorem foldl_stepNoFalse (sched : List Actor) (s : SharedDataNoFalseSharing) :
    (sched.foldl stepNoFalse s).x = s.x + sched.count Actor.incX ∧
    (sched.foldl stepNoFalse s).y = s.y + sched.count Actor.incY := by
  induction sched generalizing s with
  | nil => simp
  | cons a rest ih =>
    obtain ⟨ihx, ihy⟩ := ih (stepNoFalse s a)
    rcases a with _ | _ <;>
      · simp only [List.foldl_cons, List.count_cons, stepNoFalse] at ihx ihy ⊢
        constructor <;> simp_all <;> omega

/-- C1: In both the shared-line and the separated-lines dual-actor increment
experiments, after both actor threads have been joined, each of the two
counter fields (x and y) holds exactly the per-actor iteration count
(1,000,000,000): for every interleaving in which each actor takes exactly
`NUM_ITERATIONS` steps, no increment is lost, in either layout, because each
actor only ever writes its own field. -/
theorem false_sharing_no_lost_updates (s1 s2 : List Actor)
    (h1x : s1.count Actor.incX = NUM_ITERATIONS)
    (h1y : s1.count Actor.incY = NUM_ITERATIONS)
    (h2x : s2.count Actor.incX = NUM_ITERATIONS)
    (h2y : s2.count Actor.incY = NUM_ITERATIONS) :
    runFalseSharingBenchmark s1 = ⟨NUM_ITERATIONS, NUM_ITERATIONS⟩ ∧
    runNoFalseSharingBenchmark s2 = ⟨NUM_ITERATIONS, NUM_ITERATIONS⟩ := by
  obtain ⟨hx, hy⟩ := foldl_stepFalse s1 ⟨0, 0⟩
  obtain ⟨hx2, hy2⟩ := foldl_stepNoFalse s2 ⟨0, 0⟩
  constructor
  · show runFalseSharingBenchmark s1 = _
    unfold runFalseSharingBenchmark
    cases hres : s1.foldl stepFalse ⟨0, 0⟩
    simp_all
  · show runNoFalseSharingBenchmark s2 = _
    unfold runNoFalseSharingBenchmark
    cases hres : s2.foldl stepNoFalse ⟨0, 0⟩
    simp_all

theorem count_fullSchedule_incX : fullSchedule.count Actor.incX = NUM_ITERATIONS := by
  simp [fullSchedule, List.count_replicate]

theorem count_fullSchedule_incY : fullSchedule.count Actor.incY = NUM_ITERATIONS := by
  simp [fullSchedule, List.count_replicate]

theorem false_sharing_no_lost_updates_witness :
    fullSchedule.count Actor.incX = NUM_ITERATIONS ∧
    fullSchedule.count Actor.incY = NUM_ITERATIONS ∧
    runFalseSharingBenchmark fullSchedule = ⟨NUM_ITERATIONS, NUM_ITERATIONS⟩ ∧
    runNoFalseSharingBenchmark fullSchedule = ⟨NUM_ITERATIONS, NUM_ITERATIONS⟩ :=
  ⟨count_fullSchedule_incX, count_fullSchedule_incY,
    false_sharing_no_lost_updates fullSchedule fullSchedule
      count_fullSchedule_incX count_fullSchedule_incY
      count_fullSchedule_incX count_fullSchedule_incY⟩

end FalseSharing

namespace CacheAlignment

/-- Source constant `NUM_STRUCTS = 1'000'000` (cache_alignment.cpp, line 48). -/
def NUM_STRUCTS : Nat := 1000000

/-- Source constant `NUM_ITERATIONS = 100` (line 49). -/
def NUM_ITERATIONS : Nat := 100

/-- Source constant `CACHE_LINE_SIZE = 64` (line 50). -/
def CACHE_LINE_SIZE : Nat := 64

/-- Size of `int` on the target platform (4 bytes), used by
`sizeof(AlignedStruct)`. -/
def intSize : Nat := 4

/-- `sizeof(int data[16])` = 64 bytes (the comment on lines 54 and 59). -/
def rawStructSize : Nat := 16 * intSize

/-- `sizeof(AlignedStruct)`: the struct holds `int data[16]` (64 bytes) and
`alignas(CACHE_LINE_SIZE)` rounds the size up to a multiple of the
alignment, giving exactly 64. -/
def sizeofAlignedStruct : Nat :=
  ((rawStructSize + CACHE_LINE_SIZE - 1) / CACHE_LINE_SIZE) * CACHE_LINE_SIZE

/-- Contract of the C library primitive `std::aligned_alloc(alignment, size)`
(called on line 92): on success the returned address is a multiple of the
requested alignment.  `addr` is the address chosen by the platform; the
model succeeds exactly when the contract holds for it. -/
def aligned_alloc (alignment addr : Nat) : Option Nat :=
  if addr % alignment = 0 then some addr else none

/-- Address of element `i` of the acquired array: `base + i * sizeof(T)`
(C++ array indexing `arr[i]` for `AlignedStruct* arr`). -/
def elementAddress (base i : Nat) : Nat := base + i * sizeofAlignedStruct

/-- Source struct `UnalignedStruct { int data[16]; }` (lines 53-55). -/
structure UnalignedStruct where
  data : Fin 16 → Int

/-- Source struct `alignas(CACHE_LINE_SIZE) AlignedStruct { int data[16]; }`
(lines 58-60).  Same fields as `UnalignedStruct`; only the alignment
differs, which does not affect the stored values. -/
structure AlignedStruct where
  data : Fin 16 → Int

/-- Inner loop of `benchmarkAccess` (lines 71-73):
`for j in 0..15: sum += arr[i].data[j]`.  The accumulation is over a 64-bit
`long long`; all values arising in the program stay far below 2^63, so the
accumulator is modelled as an exact `Int`. -/
def elementScan (d : Fin 16 → Int) (acc : Int) : Int :=
  (List.finRange 16).foldl (fun a j => a + d j) acc

/-- Middle loop of `benchmarkAccess` (lines 70-74): one pass over the whole
array, instantiated at `UnalignedStruct`. -/
def arrayScanU (arr : List UnalignedStruct) (acc : Int) : Int :=
  arr.foldl (fun a t => elementScan t.data a) acc

/-- Middle loop of `benchmarkAccess`, instantiated at `AlignedStruct`. -/
def arrayScanA (arr : List AlignedStruct) (acc : Int) : Int :=
  arr.foldl (fun a t => elementScan t.data a) acc

/-- Accumulator computed by `benchmarkAccess<UnalignedStruct>` (lines 63-82):
`NUM_ITERATIONS` passes over the array, starting from `sum = 0`. -/
def benchmarkAccessUnaligned (arr : List UnalignedStruct) : Int :=
  (List.range NUM_ITERATIONS).foldl (fun acc _ => arrayScanU arr acc) 0

/-- Accumulator computed by `benchmarkAccess<AlignedStruct>`. -/
def benchmarkAccessAligned (arr : List AlignedStruct) : Int :=
  (List.range NUM_ITERATIONS).foldl (fun acc _ => arrayScanA arr acc) 0

/-- Sum of the 16 fields of one element. -/
def fieldSum (d : Fin 16 → Int) : Int := ((List.finRange 16).map d).sum

/-- Sum of all fields of all elements, on the common field content of the
two struct types. -/
def totalFieldSum (ds : List (Fin 16 → Int)) : Int := (ds.map fieldSum).sum

theorem foldl_add_eq_add_sum {α : Type} (f : α → Int) (l : List α) (acc : Int) :
    l.foldl (fun a x => a + f x) acc = acc + (l.map f).sum := by
  induction l generalizing acc with
  | nil => simp
  | cons x t ih => simp [ih]; ring

theorem elementScan_eq (d : Fin 16 → Int) (acc : Int) :
    elementScan d acc = acc + fieldSum d :=
  foldl_add_eq_add_sum d (List.finRange 16) acc

theorem arrayScanU_eq (arr : List UnalignedStruct) (acc : Int) :
    arrayScanU arr acc = acc + totalFieldSum (arr.map UnalignedStruct.data) := by
  induction arr generalizing acc with
  | nil => simp [arrayScanU, totalFieldSum]
  | cons t rest ih =>
    simp [arrayScanU, totalFieldSum] at ih ⊢
    rw [elementScan_eq, ih]
    ring

theorem arrayScanA_eq (arr : List AlignedStruct) (acc : Int) :
    arrayScanA arr acc = acc + totalFieldSum (arr.map AlignedStruct.data) := by
  induction arr generalizing acc with
  | nil => simp [arrayScanA, totalFieldSum]
  | cons t rest ih =>
    simp [arrayScanA, totalFieldSum] at ih ⊢
    rw [elementScan_eq, ih]
    ring

theorem range_foldl_scanU (arr : List UnalignedStruct) (n : Nat) :
    (List.range n).foldl (fun acc _ => arrayScanU arr acc) 0 =
      n * totalFieldSum (arr.map UnalignedStruct.data) := by
  induction n with
  | zero => simp
  | succ n ih =>
    rw [List.range_succ, List.foldl_append, ih, List.foldl_cons, List.foldl_nil,
      arrayScanU_eq]
    push_cast
    ring

theorem range_foldl_scanA (arr : List AlignedStruct) (n : Nat) :
    (List.range n).foldl (fun acc _ => arrayScanA arr acc) 0 =
      n * totalFieldSum (arr.map AlignedStruct.data) := by
  induction n with
  | zero => simp
  | succ n ih =>
    rw [List.range_succ, List.foldl_append, ih, List.foldl_cons, List.foldl_nil,
      arrayScanA_eq]
    push_cast
    ring

theorem totalFieldSum_zero (n : Nat) :
    totalFieldSum (List.replicate n (fun _ => (0 : Int))) = 0 := by
  induction n with
  | zero => simp [totalFieldSum]
  | succ n ih =>
    simp [totalFieldSum, List.replicate_succ, fieldSum] at ih ⊢


/-- C3: For every successful acquisition by the aligned allocation strategy,
the returned base address is a multiple of the requested alignment (64), and
because each `AlignedStruct` element occupies exactly 64 bytes, every
element's base address in the acquired array is a multiple of 64. -/
theorem aligned_alloc_elements_aligned (addr base i : Nat)
    (h : aligned_alloc CACHE_LINE_SIZE addr = some base) :
    base % CACHE_LINE_SIZE = 0 ∧ elementAddress base i % CACHE_LINE_SIZE = 0 := by
  unfold aligned_alloc at h
  split at h
  · obtain rfl : addr = base := Option.some.inj h
    refine ⟨by assumption, ?_⟩
    simp only [elementAddress, sizeofAlignedStruct, rawStructSize, intSize,
      CACHE_LINE_SIZE] at *
    omega
  · exact absurd h (by simp)

theorem aligned_alloc_elements_aligned_witness :
    aligned_alloc CACHE_LINE_SIZE 128 = some 128 ∧
    128 % CACHE_LINE_SIZE = 0 ∧ elementAddress 128 5 % CACHE_LINE_SIZE = 0 :=
  ⟨by decide, aligned_alloc_elements_aligned 128 128 5 (by decide)⟩

/-- The all-zero array allocated in `main` (lines 88-89): `NUM_STRUCTS`
value-initialised `UnalignedStruct`s, `memset` to zero. -/
def zeroArrayUnaligned : List UnalignedStruct :=
  List.replicate NUM_STRUCTS ⟨fun _ => 0⟩

/-- The all-zero aligned array allocated in `main` (lines 92-95). -/
def zeroArrayAligned : List AlignedStruct :=
  List.replicate NUM_STRUCTS ⟨fun _ => 0⟩

/-- C9: The full-struct scan over the unaligned array and the full-struct
scan over the aligned array are extensionally equal: for any two arrays of
the same count whose elements have element-wise identical `data[0..15]`
contents, `benchmarkAccess<UnalignedStruct>` and
`benchmarkAccess<AlignedStruct>` compute the same accumulator sum, namely
`NUM_ITERATIONS` times the sum of all fields of all elements — and 0 for the
zero-initialized arrays in `main`. -/
theorem struct_scan_extensional_equal (ua : List UnalignedStruct)
    (aa : List AlignedStruct)
    (h : ua.map UnalignedStruct.data = aa.map AlignedStruct.data) :
    benchmarkAccessUnaligned ua = benchmarkAccessAligned aa ∧
    benchmarkAccessUnaligned ua =
      NUM_ITERATIONS * totalFieldSum (ua.map UnalignedStruct.data) ∧
    benchmarkAccessUnaligned zeroArrayUnaligned = 0 ∧
    benchmarkAccessAligned zeroArrayAligned = 0 := by
  have hu := range_foldl_scanU ua NUM_ITERATIONS
  have ha := range_foldl_scanA aa NUM_ITERATIONS
  have hz1 : benchmarkAccessUnaligned zeroArrayUnaligned = 0 := by
    have := range_foldl_scanU zeroArrayUnaligned NUM_ITERATIONS
    unfold benchmarkAccessUnaligned
    rw [this]
    have : zeroArrayUnaligned.map UnalignedStruct.data =
        List.replicate NUM_STRUCTS (fun _ => (0 : Int)) := by
      simp [zeroArrayUnaligned]
    rw [this, totalFieldSum_zero]
    ring
  have hz2 : benchmarkAccessAligned zeroArrayAligned = 0 := by
    have := range_foldl_scanA zeroArrayAligned NUM_ITERATIONS
    unfold benchmarkAccessAligned
    rw [this]
    have : zeroArrayAligned.map AlignedStruct.data =
        List.replicate NUM_STRUCTS (fun _ => (0 : Int)) := by
      simp [zeroArrayAligned]
    rw [this, totalFieldSum_zero]
    ring
  refine ⟨?_, ?_, hz1, hz2⟩
  · unfold benchmarkAccessUnaligned benchmarkAccessAligned
    rw [hu, ha, h]
  · unfold benchmarkAccessUnaligned
    rw [hu]

/-- A one-element array with all sixteen fields set to 1, in both layouts. -/
def onesArrayUnaligned : List UnalignedStruct := [⟨fun _ => 1⟩]

/-- The aligned counterpart of `onesArrayUnaligned`. -/
def onesArrayAligned : List AlignedStruct := [⟨fun _ => 1⟩]

theorem struct_scan_extensional_equal_witness :
    onesArrayUnaligned.map UnalignedStruct.data =
      onesArrayAligned.map AlignedStruct.data ∧
    benchmarkAccessUnaligned onesArrayUnaligned =
      benchmarkAccessAligned onesArrayAligned ∧
    benchmarkAccessUnaligned onesArrayUnaligned =
      NUM_ITERATIONS * totalFieldSum (onesArrayUnaligned.map UnalignedStruct.data) ∧
    benchmarkAccessUnaligned zeroArrayUnaligned = 0 ∧
    benchmarkAccessAligned zeroArrayAligned = 0 :=
  ⟨rfl, struct_scan_extensional_equal onesArrayUnaligned onesArrayAligned rfl⟩


namespace SoaVsAos

/-- Source constant `NUM_PARTICLES = 100'000'000` (soa_vs_aos.cpp, line 79). -/
def NUM_PARTICLES : Nat := 100000000

/-- Source struct `ParticleAoS { float x, y, z; }` (lines 81-83).  The field
type is kept abstract: the equivalence below holds because the two scans
perform literally the same sequence of `float` additions, so no property of
IEEE arithmetic needs to be assumed. -/
structure ParticleAoS (α : Type) where
  x : α
  y : α
  z : α

/-- Source struct `ParticlesSoA { std::vector<float> x, y, z; }`
(lines 85-93). -/
structure ParticlesSoA (α : Type) where
  x : List α
  y : List α
  z : List α

/-- The `ParticlesSoA(size_t n)` constructor (lines 88-92): each field vector
is resized to `n`, value-initialising every element to `zero` (0.0f). -/
def particlesSoAInit {α : Type} (zero : α) (n : Nat) : ParticlesSoA α :=
  ⟨List.replicate n zero, List.replicate n zero, List.replicate n zero⟩

/-- The AoS array built in `runAoSBenchmark` (line 96):
`std::vector<ParticleAoS> particles(NUM_PARTICLES)` value-initialises every
particle, i.e. all three fields to `zero`. -/
def aosInit {α : Type} (zero : α) (n : Nat) : List (ParticleAoS α) :=
  List.replicate n ⟨zero, zero, zero⟩

/-- Accumulation loop of `runAoSBenchmark` (lines 99-102):
`sum = 0.0f; for i: sum += particles[i].x`, with `add` abstracting `float`
addition and `zero` abstracting `0.0f`. -/
def runAoSBenchmark {α : Type} (add : α → α → α) (zero : α)
    (particles : List (ParticleAoS α)) : α :=
  particles.foldl (fun s p => add s p.x) zero

/-- Accumulation loop of `runSoABenchmark` (lines 112-115):
`sum = 0.0f; for i: sum += particles.x[i]`. -/
def runSoABenchmark {α : Type} (add : α → α → α) (zero : α)
    (particles : ParticlesSoA α) : α :=
  particles.x.foldl (fun s v => add s v) zero

/-- Field-major view of an element-major array: the logically identical data
(same count of elements holding the same field values). -/
def toSoA {α : Type} (ps : List (ParticleAoS α)) : ParticlesSoA α :=
  ⟨ps.map ParticleAoS.x, ps.map ParticleAoS.y, ps.map ParticleAoS.z⟩

theorem toSoA_aosInit {α : Type} (zero : α) (n : Nat) :
    toSoA (aosInit zero n) = particlesSoAInit zero n := by
  simp [toSoA, aosInit, particlesSoAInit]

/-- C2: The element-major (AoS) scan and the field-major (SoA) scan, run over
logically identical data (the same count of elements holding the same field
values), produce identical accumulator values; in the program both sum the x
field of 100,000,000 value-initialized (all-zero) elements, so the two sums
are equal. -/
theorem aos_soa_scan_equal {α : Type} (add : α → α → α) (zero : α)
    (ps : List (ParticleAoS α)) :
    runSoABenchmark add zero (toSoA ps) = runAoSBenchmark add zero ps ∧
    runSoABenchmark add zero (particlesSoAInit zero NUM_PARTICLES) =
      runAoSBenchmark add zero (aosInit zero NUM_PARTICLES) := by
  have key : ∀ qs : List (ParticleAoS α),
      runSoABenchmark add zero (toSoA qs) = runAoSBenchmark add zero qs := by
    intro qs
    unfold runSoABenchmark runAoSBenchmark toSoA
    simp [List.foldl_map]
  exact ⟨key ps, by rw [← toSoA_aosInit]; exact key (aosInit zero NUM_PARTICLES)⟩

end SoaVsAos

namespace HeapVsPool

/-- Source constant `NUM_OBJECTS = 10'000'000` (soa_vs_aos.cpp, line 187). -/
def NUM_OBJECTS : Nat := 10000000

/-- Source struct `Trade { int id; double price; int quantity; }`
(lines 189-193).  The `double` price is modelled as a rational: the prices
`100.5 + i` appearing in the program are exactly representable. -/
structure Trade where
  id : Int
  price : Rat
  quantity : Int
deriving DecidableEq

/-- The element constructed into slot `i`:
`Trade{static_cast<int>(i), 100.5 + i, 10}` (line 223). -/
def mkTrade (i : Nat) : Trade := ⟨Int.ofNat i, 100.5 + i, 10⟩

/-- Observable lifecycle events of `poolAllocationBenchmark`: the single
`malloc` of the raw region (line 219), each placement-new construction
(line 223), each explicit destructor call (line 228), and the single `free`
of the region (line 231). -/
inductive PoolEvent where
  | mallocRegion
  | construct (i : Nat) (t : Trade)
  | destructSlot (i : Nat)
  | freeRegion
deriving DecidableEq

/-- `poolAllocationBenchmark` (lines 216-237) with the object count as a
parameter (the program runs it at `NUM_OBJECTS`): one `malloc`, in-place
construction of slots `0..n-1`, explicit destruction of slots `0..n-1`, then
one `free` of the raw region. -/
def poolAllocationBenchmark (n : Nat) : List PoolEvent :=
  [PoolEvent.mallocRegion]
    ++ (List.range n).map (fun i => PoolEvent.construct i (mkTrade i))
    ++ (List.range n).map (fun i => PoolEvent.destructSlot i)
    ++ [PoolEvent.freeRegion]

/-- Recognises construction events. -/
def isConstruct : PoolEvent → Bool
  | PoolEvent.construct _ _ => true
  | _ => false

/-- Recognises destruction events. -/
def isDestruct : PoolEvent → Bool
  | PoolEvent.destructSlot _ => true
  | _ => false

/-- Number of in-place constructions in a trace. -/
def constructionCount (tr : List PoolEvent) : Nat := tr.countP isConstruct

/-- Number of explicit destructor calls in a trace. -/
def destructionCount (tr : List PoolEvent) : Nat := tr.countP isDestruct


theorem count_range_list (i n : Nat) :
    (List.range n).count i = if i < n then 1 else 0 := by
  induction n with
  | zero => simp
  | succ n ih =>
    rw [List.range_succ, List.count_append, ih, List.count_singleton]
    simp only [beq_iff_eq]
    split_ifs <;> omega

theorem construct_injective :
    Function.Injective (fun i => PoolEvent.construct i (mkTrade i)) := by
  intro a b hab
  exact (by simpa using hab : a = b ∧ mkTrade a = mkTrade b).1

theorem destructSlot_injective : Function.Injective PoolEvent.destructSlot := by
  intro a b hab
  simpa using hab

/-- C4: For the pool allocation strategy, after release completes, the
destructor has run exactly once for every element that was constructed in
place in the pool region, and every destruction happens before the single
raw region is freed (the `free` is the final event of the trace): for every
count `n`, construction count equals destruction count equals `n`, and each
slot `i < n` is constructed exactly once and destructed exactly once. -/
theorem pool_construct_destruct_balanced (n i : Nat) (h : i < n) :
    constructionCount (poolAllocationBenchmark n) = n ∧
    destructionCount (poolAllocationBenchmark n) = n ∧
    (poolAllocationBenchmark n).count (PoolEvent.construct i (mkTrade i)) = 1 ∧
    (poolAllocationBenchmark n).count (PoolEvent.destructSlot i) = 1 ∧
    (poolAllocationBenchmark n).count PoolEvent.freeRegion = 1 ∧
    (poolAllocationBenchmark n).getLast? = some PoolEvent.freeRegion := by
  refine ⟨?_, ?_, ?_, ?_, ?_, ?_⟩
  · simp [constructionCount, poolAllocationBenchmark, List.countP_append,
      List.countP_map, Function.comp_def, isConstruct]
  · simp [destructionCount, poolAllocationBenchmark, List.countP_append,
      List.countP_map, Function.comp_def, isDestruct]
  · rw [poolAllocationBenchmark]
    simp only [List.count_append]
    rw [List.count_map_of_injective (List.range n) _ construct_injective i,
      count_range_list]
    simp [h, List.count_singleton, List.count_eq_zero]
  · rw [poolAllocationBenchmark]
    simp only [List.count_append]
    rw [List.count_map_of_injective (List.range n) _ destructSlot_injective i,
      count_range_list]
    simp [h, List.count_singleton, List.count_eq_zero]
  · rw [poolAllocationBenchmark]
    simp only [List.count_append]
    simp [List.count_singleton, List.count_eq_zero]
  · have hshape : poolAllocationBenchmark n =
        ([PoolEvent.mallocRegion]
          ++ (List.range n).map (fun i => PoolEvent.construct i (mkTrade i))
          ++ (List.range n).map (fun i => PoolEvent.destructSlot i))
          ++ [PoolEvent.freeRegion] := by
      simp [poolAllocationBenchmark]
    rw [hshape, List.getLast?_concat]

theorem pool_construct_destruct_balanced_witness :
    1 < 3 ∧
    constructionCount (poolAllocationBenchmark 3) = 3 ∧
    destructionCount (poolAllocationBenchmark 3) = 3 ∧
    (poolAllocationBenchmark 3).count (PoolEvent.construct 1 (mkTrade 1)) = 1 ∧
    (poolAllocationBenchmark 3).count (PoolEvent.destructSlot 1) = 1 ∧
    (poolAllocationBenchmark 3).count PoolEvent.freeRegion = 1 ∧
    (poolAllocationBenchmark 3).getLast? = some PoolEvent.freeRegion :=
  ⟨by decide, pool_construct_destruct_balanced 3 1 (by decide)⟩

end HeapVsPool


namespace NumaAccess

/-- Source constant `NUM_ITERATIONS = 500'000'000` (numa_access.cpp,
line 60). -/
def NUM_ITERATIONS : Nat := 500000000

/-- Source constant `DATA_SIZE = 1024 * 1024` (line 61): the 1 MB block
acquired by `numa_alloc_onnode` (line 84) and freed by `numa_free`
(line 91). -/
def DATA_SIZE : Nat := 1024 * 1024

/-- Byte index accessed in loop iteration `i`: `i % DATA_SIZE` (line 70). -/
def accessIndex (i : Nat) : Nat := i % DATA_SIZE

/-- One loop iteration of `runBenchmark` (line 70):
`data[i % DATA_SIZE]++` on a `volatile char*` — a read-modify-write of one
byte of the block, wrapping modulo 256. -/
def numaStep (data : List Nat) (i : Nat) : List Nat :=
  data.set (accessIndex i) ((data.getD (accessIndex i) 0 + 1) % 256)

/-- `runBenchmark` (lines 63-76) run for `iters` iterations over the block
`data`.  The first component is the final content of the block; the second
is the value returned by the function — the C++ function returns `void`, so
no accumulator is returned. -/
def runBenchmark (data : List Nat) (iters : Nat) : List Nat × Option Int :=
  ((List.range iters).foldl numaStep data, none)

theorem foldl_numaStep_length (l : List Nat) (data : List Nat) :
    (l.foldl numaStep data).length = data.length := by
  induction l generalizing data with
  | nil => rfl
  | cons i rest ih => simp [ih, numaStep]

/-- C10: In the NUMA access-pattern loop, every memory access indexes the
block at `i % DATA_SIZE`, which for every iteration `i` lies in
`[0, DATA_SIZE)`, so the pattern never reads or writes a byte outside the
1 MB region that was acquired, for any iteration count: the block's extent
is preserved by the whole run. -/
theorem numa_access_in_bounds :
    (∀ i : Nat, accessIndex i < DATA_SIZE) ∧
    (∀ (data : List Nat) (iters : Nat),
      ((runBenchmark data iters).1).length = data.length) := by
  constructor
  · intro i
    exact Nat.mod_lt i (by norm_num [DATA_SIZE])
  · intro data iters
    exact foldl_numaStep_length (List.range iters) data

/-- C8 counterexample: the NUMA access pattern performs its reads and writes
(after one iteration the first byte of the all-zero block holds 1), yet its
`run` returns no accumulator at all — `runBenchmark` returns `void` — so the
claim that every pattern variant returns an accumulator to which every read
contributes is false for the NUMA local/remote scan. -/
theorem numa_scan_no_accumulator_counterexample :
    (runBenchmark (List.replicate DATA_SIZE 0) 1).2 = none ∧
    (runBenchmark (List.replicate DATA_SIZE 0) 1).1.head? = some 1 := by
  constructor
  · rfl
  · show ((List.range 1).foldl numaStep (List.replicate DATA_SIZE 0)).head? = some 1
    rw [show List.range 1 = [0] from rfl]
    simp only [List.foldl_cons, List.foldl_nil]
    rw [show DATA_SIZE = 1048575 + 1 by norm_num [DATA_SIZE], List.replicate_succ]
    simp only [numaStep, accessIndex, Nat.zero_mod, List.getD_cons_zero,
      List.set_cons_zero]
    rfl

/-- C8 amended: the full-struct scan of the cache-alignment experiment does
accumulate every read — its accumulator equals the iteration count times the
sum of all fields of all elements — but the NUMA local/remote scan returns
no accumulator: `runBenchmark` returns `void`, and each access instead
read-modify-writes a volatile byte of the block in place. -/
theorem every_read_contributes_amended :
    (∀ arr : List CacheAlignment.UnalignedStruct,
      CacheAlignment.benchmarkAccessUnaligned arr =
        CacheAlignment.NUM_ITERATIONS *
          CacheAlignment.totalFieldSum (arr.map CacheAlignment.UnalignedStruct.data)) ∧
    (∀ (data : List Nat) (iters : Nat), (runBenchmark data iters).2 = none) := by
  constructor
  · intro arr
    exact CacheAlignment.range_foldl_scanU arr CacheAlignment.NUM_ITERATIONS
  · intro data iters
    rfl

end NumaAccess


namespace Timing

/-- Observable events of one benchmark run: memory acquisition, memory
release, timer start (`high_resolution_clock::now()` into `start`), timer
stop (`now()` into `end`), and untimed/timed access-pattern work (the scan
loops, including thread spawn and join for the concurrent patterns). -/
inductive Ev where
  | acquire
  | release
  | timerStart
  | timerStop
  | work
deriving DecidableEq

/-- Scans a trace left to right, tracking whether the timer is running;
returns `false` iff some acquisition or release occurs while the timer
runs. -/
def outsideTimedAux : Bool → List Ev → Bool
  | _, [] => true
  | _, Ev.timerStart :: r => outsideTimedAux true r
  | _, Ev.timerStop :: r => outsideTimedAux false r
  | inT, Ev.acquire :: r => !inT && outsideTimedAux inT r
  | inT, Ev.release :: r => !inT && outsideTimedAux inT r
  | inT, Ev.work :: r => outsideTimedAux inT r

/-- Every acquisition and release in the trace occurs outside the timed
interval(s). -/
def acquireReleaseOutsideTimed (tr : List Ev) : Bool := outsideTimedAux false tr

/-- Event order of the cache-alignment program (cache_alignment.cpp,
lines 84-105): both arrays are allocated first (lines 88 and 92), each of
the two `benchmarkAccess` calls starts and stops its own timer around the
scan (lines 67-77), and both arrays are freed last (lines 101-102). -/
def cacheAlignmentMainTrace : List Ev :=
  [Ev.acquire, Ev.acquire, Ev.timerStart, Ev.work, Ev.timerStop,
    Ev.timerStart, Ev.work, Ev.timerStop, Ev.release, Ev.release]

/-- Event order of `runAoSBenchmark` (soa_vs_aos.cpp, lines 95-107): the
particle vector is constructed before the timer starts (line 96) and
destroyed at scope exit after the timer stops. -/
def runAoSBenchmarkTrace : List Ev :=
  [Ev.acquire, Ev.timerStart, Ev.work, Ev.timerStop, Ev.release]

/-- Event order of `runSoABenchmark` (lines 109-121): same shape as the AoS
variant. -/
def runSoABenchmarkTrace : List Ev :=
  [Ev.acquire, Ev.timerStart, Ev.work, Ev.timerStop, Ev.release]

/-- Event order of the NUMA program (numa_access.cpp, lines 78-93): the
block is acquired once (line 84), each of the two `runBenchmark` calls times
only its access loop (lines 67-74), and the block is freed last (line 91). -/
def numaMainTrace : List Ev :=
  [Ev.acquire, Ev.timerStart, Ev.work, Ev.timerStop,
    Ev.timerStart, Ev.work, Ev.timerStop, Ev.release]

/-- Event order of the two false-sharing benchmarks (part_000,
lines 121-124): the shared structs are globals, so there is no acquisition
or release at all; each benchmark spawns, runs, and joins its two threads
inside its own timed window. -/
def falseSharingMainTrace : List Ev :=
  [Ev.timerStart, Ev.work, Ev.timerStop, Ev.timerStart, Ev.work, Ev.timerStop]

/-- Event order of `heapAllocationBenchmark` (soa_vs_aos.cpp,
lines 197-211) for `n` objects: the timer starts (line 198), then the `n`
`new` calls (line 202) and the `n` `delete` calls (line 205) happen inside
the timed window, then the timer stops (line 207). -/
def heapAllocationBenchmarkTrace (n : Nat) : List Ev :=
  [Ev.timerStart] ++ List.replicate n Ev.acquire ++ List.replicate n Ev.release
    ++ [Ev.timerStop]

/-- Event order of `poolAllocationBenchmark` (lines 216-237) for `n`
objects: the timer starts (line 217), then the single `malloc` (line 219),
the `n` placement-new constructions, the `n` destructor calls, and the
single `free` (line 231) all happen inside the timed window, then the timer
stops (line 233). -/
def poolAllocationBenchmarkTrace (n : Nat) : List Ev :=
  [Ev.timerStart, Ev.acquire] ++ List.replicate n Ev.work
    ++ List.replicate n Ev.work ++ [Ev.release, Ev.timerStop]

theorem outsideTimed_heapTrace (n : Nat) :
    acquireReleaseOutsideTimed (heapAllocationBenchmarkTrace (n + 1)) = false := by
  rw [heapAllocationBenchmarkTrace, List.replicate_succ]
  simp only [acquireReleaseOutsideTimed, List.cons_append, List.nil_append,
    outsideTimedAux, Bool.not_true, Bool.false_and]

theorem outsideTimed_poolTrace (n : Nat) :
    acquireReleaseOutsideTimed (poolAllocationBenchmarkTrace n) = false := by
  rw [poolAllocationBenchmarkTrace]
  simp only [acquireReleaseOutsideTimed, List.cons_append, List.nil_append,
    outsideTimedAux, Bool.not_true, Bool.false_and]

/-- C5 counterexample: in the heap-vs-pool program run at its actual object
count, both benchmark functions place acquisition and release inside the
timed interval, so the claim that acquisition and release always occur
outside the timed interval for every strategy/pattern variant is false. -/
theorem heap_pool_alloc_inside_timed_counterexample :
    acquireReleaseOutsideTimed
      (heapAllocationBenchmarkTrace HeapVsPool.NUM_OBJECTS) = false ∧
    acquireReleaseOutsideTimed
      (poolAllocationBenchmarkTrace HeapVsPool.NUM_OBJECTS) = false := by
  constructor
  · have h := outsideTimed_heapTrace 9999999
    rwa [show (9999999 + 1 : Nat) = HeapVsPool.NUM_OBJECTS from rfl] at h
  · exact outsideTimed_poolTrace HeapVsPool.NUM_OBJECTS

/-- C5 amended: the cache-alignment, AoS/SoA, NUMA, and false-sharing
experiments do acquire before the timer starts and release after it stops
(the false-sharing pair acquires nothing at all, its data being global), but
the two heap-vs-pool benchmarks deliberately place every acquisition and
release inside the timed interval for every positive object count, since
allocation cost is the very quantity they measure. -/
theorem acquire_release_outside_timed_amended :
    acquireReleaseOutsideTimed cacheAlignmentMainTrace = true ∧
    acquireReleaseOutsideTimed runAoSBenchmarkTrace = true ∧
    acquireReleaseOutsideTimed runSoABenchmarkTrace = true ∧
    acquireReleaseOutsideTimed numaMainTrace = true ∧
    acquireReleaseOutsideTimed falseSharingMainTrace = true ∧
    (∀ n : Nat,
      acquireReleaseOutsideTimed (heapAllocationBenchmarkTrace (n + 1)) = false) ∧
    (∀ n : Nat,
      acquireReleaseOutsideTimed (poolAllocationBenchmarkTrace n) = false) := by
  exact ⟨by decide, by decide, by decide, by decide, by decide,
    outsideTimed_heapTrace, outsideTimed_poolTrace⟩

end Timing


namespace Failures

/-- How a program run ends: normal exit, `assert` abort, early `return 1`,
or undefined behaviour from dereferencing a null block pointer. -/
inductive Outcome where
  | normal
  | assertAbort
  | earlyExit
  | segfault
deriving DecidableEq

/-- `main` of cache_alignment.cpp (lines 84-105) as a function of whether
`std::aligned_alloc` succeeds (line 92).  On failure the
`assert(rawPtr != nullptr)` on line 93 aborts the whole process before
either benchmark has run; on success both benchmarks run and the process
exits normally.  Returns the process outcome together with the labels of
the benchmark variants that completed. -/
def cacheAlignmentMain (alignedAllocOk : Bool) : Outcome × List String :=
  if alignedAllocOk then
    (Outcome.normal, ["Unaligned access", "Aligned access"])
  else
    (Outcome.assertAbort, [])

/-- `main` of numa_access.cpp (lines 78-93) as a function of whether
`numa_available()` reports NUMA support (line 79) and whether
`numa_alloc_onnode` (line 84) returns a non-null region.  Unavailable
topology makes `main` print an error and `return 1` before any benchmark;
a null region is never checked and is dereferenced inside the first
`runBenchmark` call (line 70); otherwise both benchmarks run. -/
def numaMain (numaAvailable allocOk : Bool) : Outcome × List String :=
  if !numaAvailable then (Outcome.earlyExit, [])
  else if !allocOk then (Outcome.segfault, [])
  else (Outcome.normal, ["Local access (Node 0)", "Remote access (Node 1)"])

/-- C6 counterexample: when the aligned allocation in cache_alignment fails,
the process aborts via `assert` with zero variants run, and when the NUMA
allocation fails, the null pointer is dereferenced (a crash) with zero
variants run — so the claim that an acquisition failure surfaces as an
`AllocationError`/`TopologyError` that aborts only the single experiment,
never as a crash, with the other variants still running, is false. -/
theorem acquisition_failure_crashes_counterexample :
    cacheAlignmentMain false = (Outcome.assertAbort, []) ∧
    numaMain true false = (Outcome.segfault, []) :=
  ⟨rfl, rfl⟩

/-- C6 amended: no `AllocationError`/`TopologyError` error values exist in
the programs; an acquisition failure aborts the entire program before any
variant has run — via `assert` in cache_alignment, via an early `return 1`
in numa_access when topology is unavailable, and via an unchecked null
dereference in numa_access when allocation fails — while on success all
variants of the comparison run. -/
theorem acquisition_failure_aborts_program_amended :
    cacheAlignmentMain false = (Outcome.assertAbort, []) ∧
    cacheAlignmentMain true =
      (Outcome.normal, ["Unaligned access", "Aligned access"]) ∧
    numaMain false true = (Outcome.earlyExit, []) ∧
    numaMain false false = (Outcome.earlyExit, []) ∧
    numaMain true false = (Outcome.segfault, []) ∧
    numaMain true true =
      (Outcome.normal, ["Local access (Node 0)", "Remote access (Node 1)"]) ∧
    (∀ b : Bool, (cacheAlignmentMain b).2.length ≠ 1) ∧
    (∀ a b : Bool, (numaMain a b).2.length ≠ 1) := by
  refine ⟨rfl, rfl, rfl, rfl, rfl, rfl, ?_, ?_⟩
  · intro b
    cases b <;> simp [cacheAlignmentMain]
  · intro a b
    cases a <;> cases b <;> simp [numaMain]

end Failures

namespace Layout

/-- Size of `int` (4 bytes) on the target platform. -/
def intBytes : Nat := 4

/-- Cache line size assumed throughout part_000 (64 bytes, see the
`alignas(64)` on line 63 and `padding[64 - sizeof(int)]` on line 65). -/
def lineBytes : Nat := 64

/-- Offset of `x` in `SharedDataFalseSharing` (part_000, lines 57-60):
first member of a standard-layout struct. -/
def offsetX_shared : Nat := 0

/-- Offset of `y` in `SharedDataFalseSharing`: both members are `int`s of
alignment 4, so `y` follows `x` immediately with no padding. -/
def offsetY_shared : Nat := intBytes

/-- Offset of `x` in `SharedDataNoFalseSharing` (lines 63-67). -/
def offsetX_padded : Nat := 0

/-- Offset of `y` in `SharedDataNoFalseSharing`: `x` (4 bytes) is followed
by `char padding[64 - sizeof(int)]` (60 bytes), so `y` sits at byte 64. -/
def offsetY_padded : Nat := intBytes + (lineBytes - intBytes)

/-- Alignment of `SharedDataFalseSharing`: the natural alignment of its
strictest member, `int`, i.e. 4 — every instance address is a multiple
of 4, but nothing stronger is guaranteed. -/
def alignofShared : Nat := intBytes

/-- Alignment of `SharedDataNoFalseSharing`: forced to 64 by `alignas(64)`
(line 63) — every instance address is a multiple of 64. -/
def alignofPadded : Nat := lineBytes

/-- Index of the 64-byte cache line containing a byte address. -/
def lineOf (addr : Nat) : Nat := addr / lineBytes

/-- Both counter fields of a `SharedDataFalseSharing` instance at address
`a` lie within one cache line: the first byte of `x` and the last byte of
`y` (the fields span bytes `[a, a+8)`) share a line. -/
def xyWithinOneLine (a : Nat) : Prop :=
  lineOf (a + offsetX_shared) = lineOf (a + offsetY_shared + (intBytes - 1))

instance (a : Nat) : Decidable (xyWithinOneLine a) := by
  unfold xyWithinOneLine
  exact inferInstance

/-- For a `SharedDataNoFalseSharing` instance at address `b`: every byte of
`x` is in one line, every byte of `y` in a single different line. -/
def xyInDifferentLines (b : Nat) : Prop :=
  lineOf (b + offsetX_padded) = lineOf (b + offsetX_padded + (intBytes - 1)) ∧
  lineOf (b + offsetY_padded) = lineOf (b + offsetY_padded + (intBytes - 1)) ∧
  lineOf (b + offsetX_padded) ≠ lineOf (b + offsetY_padded)

instance (b : Nat) : Decidable (xyInDifferentLines b) := by
  unfold xyInDifferentLines
  exact inferInstance

/-- C7 counterexample: address 60 is a valid instance address for
`SharedDataFalseSharing` (it satisfies the struct's alignment of 4), yet at
that address `x` occupies bytes 60-63 of line 0 while `y` occupies bytes
64-67 of line 1 — so the claim that both fields lie within one 64-byte
cache line for every instance of the struct is false. -/
theorem shared_line_not_every_instance_counterexample :
    60 % alignofShared = 0 ∧ ¬ xyWithinOneLine 60 := by
  decide

/-- C7 amended: in the shared-line layout no padding separates `x` and `y`
(they occupy the 8 contiguous bytes at offsets 0-7), so both fields lie
within one 64-byte cache line for every instance whose base address has
remainder at most 56 modulo 64 — in particular for every instance starting
at a cache-line boundary — though not for every 4-aligned address; in the
separated-lines layout `alignas(64)` makes every instance address a
multiple of 64, so `x` and `y` always fall in different 64-byte-aligned
cache lines. -/
theorem field_line_layout_amended (a b : Nat) (ha : a % 64 ≤ 56)
    (hb : b % alignofPadded = 0) :
    xyWithinOneLine a ∧ xyInDifferentLines b := by
  unfold xyWithinOneLine xyInDifferentLines lineOf offsetX_shared
    offsetY_shared offsetX_padded offsetY_padded alignofPadded lineBytes
    intBytes at *
  omega

theorem field_line_layout_amended_witness :
    0 % 64 ≤ 56 ∧ 64 % alignofPadded = 0 ∧
    xyWithinOneLine 0 ∧ xyInDifferentLines 64 :=
  ⟨by decide, by decide,
    (field_line_layout_amended 0 64 (by decide) (by decide)).1,
    (field_line_layout_amended 0 64 (by decide) (by decide)).2⟩

end Layout

